import Mathlib

/-!
Verification of `productcatalog/analyze_products.py`

A shallow embedding of the conversational product-catalog assistant in
`src/productcatalog/analyze_products.py`, together with theorems settling the
frozen claims about it.

The program wires a LangGraph `StateGraph` over a `RagState` TypedDict:
a conditional branch from START picks either the agent search node
(`_search_db`, when `config.advanced` is true) or the SQL chain
(`_build_query` → `_execute_query` → `_build_answer`), both feeding into
`_retrive_docs` → `_generate_from_context` → `_merge_smart`.  The graph is
compiled with a `MemorySaver` checkpointer under the fixed thread id
`"common"`, and `invoke` seeds `state["messages"]` with a single
`HumanMessage` before running the graph.

External collaborators (the chat model, the SQL database, the embedding
service and the similarity ranking of the in-memory vector store) are opaque
vendor code; they are modelled as oracle functions collected in `Env`.
Everything the repository itself computes — the message-history string, the
state updates of each node, the graph wiring, the order of the initialisation calls
in the constructor, the channel overwrite performed by `invoke` — is
translated directly from the source.

Channel semantics used by the model (LangGraph): every `RagState` field is a
`LastValue` channel because no field annotation carries a reducer (the
`messages` field is annotated with a bare `[]`, line 129, not with an
`Annotated[..., add_messages]` reducer), so a write to a channel replaces its
previous value; the input dict passed to `graph.invoke` is written to the
named channels before the first step, all other channels keeping their
checkpointed values.
-/

set_option autoImplicit false

deriving instance DecidableEq for Except

namespace ProductCatalog

/-! ### Messages

`invoke` (line 263) stores `HumanMessage(content=question)` and `_merge_smart`
(line 222) appends `AIMessage(content=response.content)`: both are langchain
message *objects*, which expose `.content` but have no dict-style `.get`
method.  A plain `dict` entry (what `_build_message_history` expects, lines
135–136) is modelled as an association list of string keys. -/

inductive Msg where
  | human (content : String)
  | ai (content : String)
  | dict (pairs : List (String × String))
  deriving DecidableEq

/-- True for the langchain message objects (`HumanMessage`/`AIMessage`),
false for a plain dict entry. -/
def Msg.isObj : Msg → Bool
  | .human _ => true
  | .ai _ => true
  | .dict _ => false

/-- True only for a plain dict entry. -/
def Msg.isDict : Msg → Bool
  | .dict _ => true
  | _ => false

/-- Python `dict.get(key, default)`. -/
def dictGet (pairs : List (String × String)) (key dflt : String) : String :=
  match pairs.lookup key with
  | some v => v
  | none => dflt

/-- Dict-style `msg.get(key, default)` as executed on a message entry: succeeds on a
plain dict, raises `AttributeError` on a `HumanMessage`/`AIMessage` object
(pydantic models have no `.get`). -/
def msgGet (m : Msg) (key dflt : String) : Except String String :=
  match m with
  | .dict pairs => .ok (dictGet pairs key dflt)
  | .human _ => .error "AttributeError: HumanMessage object has no attribute get"
  | .ai _ => .error "AttributeError: AIMessage object has no attribute get"

/-- Python `str.capitalize()`: first character upper-cased, the rest
lower-cased. -/
def pyCapitalize (s : String) : String :=
  match s.data with
  | [] => ""
  | c :: cs => String.mk (c.toUpper :: cs.map Char.toLower)

/-- Drop leading whitespace characters. -/
def stripLeading : List Char → List Char
  | [] => []
  | c :: cs => if c.isWhitespace then stripLeading cs else c :: cs

/-- Python `str.strip()` with no argument: remove leading and trailing
whitespace. -/
def pyStrip (s : String) : String :=
  String.mk (stripLeading (stripLeading s.data.reverse).reverse)

/-! ### `_build_message_history` (lines 131–138)

```python
def _build_message_history(self, state:RagState):
    messages = state.get("messages", [])
    history = ""
    for msg in messages[:-1]:
        role = msg.get("role", "unknown").capitalize()
        content = msg.get("content", "")
        history += f"{role}: {content}\n"
    return history.strip()
```
`messages[:-1]` is `List.dropLast`; the loop accumulates one
`f"{role}: {content}\n"` line per entry and the result is stripped.  An
`AttributeError` raised by `.get` propagates, modelled in `Except`. -/

def buildHistoryLoop : List Msg → String → Except String String
  | [], acc => .ok acc
  | m :: ms, acc => do
      let role ← msgGet m "role" "unknown"
      let content ← msgGet m "content" ""
      buildHistoryLoop ms (acc ++ pyCapitalize role ++ ": " ++ content ++ "\n")

def buildMessageHistory (messages : List Msg) : Except String String := do
  let h ← buildHistoryLoop messages.dropLast ""
  return pyStrip h

/-! ### The workflow state (`RagState`, lines 120–129)

`config` is the dict `{"top_k": ..., "advanced": ...}` built by the REPL
(line 271); it is flattened into the two fields actually read. Fields that a
fresh state leaves unset are `Option`s (`state["k"]` on an unset key would
raise `KeyError`). -/

structure RagState where
  question : String
  db_query : Option String
  db_result : Option String
  db_response : Option String
  context : Option (List String)
  rag_response : Option String
  top_k : Nat
  advanced : Bool
  answer : Option String
  messages : List Msg
  deriving DecidableEq

/-- Python `state["k"]` on an optional channel: `KeyError` when unset. -/
def getItem {α : Type} (o : Option α) (key : String) : Except String α :=
  match o with
  | some v => .ok v
  | none => .error ("KeyError: " ++ key)

/-- The channel values of a thread that has never run: every channel unset /
empty. -/
def emptyState : RagState :=
  { question := "", db_query := none, db_result := none, db_response := none,
    context := none, rag_response := none, top_k := 0, advanced := false,
    answer := none, messages := [] }

/-! ### External collaborators

The chat model, the SQL database and the vector store are vendor black boxes;
each call the program makes to one is an oracle field, a function of exactly
the data the program passes to it. -/

structure Env where
  /-- Structured-output model call of `_build_query` (lines 143–150): from the
  variable parts of the prompt — `top_k`, `message_history`, `input` — to the
  generated SQL string (`response["query"]`). -/
  sqlFromPrompt : Nat → String → String → String
  /-- Database tool call `QuerySQLDatabaseTool.invoke` of `_execute_query` (line 157): SQL text to
  raw result text. -/
  runSql : String → String
  /-- Model call of `_build_answer` (lines 164–170): question, SQL query, SQL
  result to answer text. -/
  answerFromSql : String → String → String → String
  /-- The whole agent loop of `_search_db` (lines 227–232): question to the
  content of the final message. -/
  agentSearch : String → String
  /-- Model call of `_build_search_query_with_context` (lines 179–185):
  conversation history to the extracted search string. -/
  extractSearchQuery : String → String
  /-- The similarity ranking of the vector store for a query: all indexed chunks,
  most similar first.  `similarity_search` truncates this to its `k`
  argument. -/
  rank : String → List String
  /-- Model call of `_generate_from_context` (lines 193–194): question and
  joined docs content to the RAG answer. -/
  ragAnswer : String → String → String
  /-- Model call of `_merge_smart` (lines 215–221): history, question,
  db_response, rag_response to the merged answer. -/
  mergeAnswer : String → String → String → String → String

/-- Framework call `InMemoryVectorStore.similarity_search(query, k)`: the `k` most similar
chunks. The framework default for `k`, used when the call site passes no
`k` argument, is 4. -/
def similaritySearch (env : Env) (query : String) (k : Nat) : List String :=
  (env.rank query).take k

/-- The `k` default of `similarity_search` when the argument is omitted. -/
def SIMILARITY_SEARCH_DEFAULT_K : Nat := 4

/-! ### The graph nodes (each returns the updated channel values) -/

/-- Step `_build_query` (lines 140–151): on `advanced` returns the state unchanged
(writing every channel with its current value); otherwise prompts the
structured model with dialect, top_k, table info, the message history and the
question, and writes `db_query`. -/
def build_query (env : Env) (s : RagState) : Except String RagState :=
  if s.advanced then .ok s
  else do
    let hist ← buildMessageHistory s.messages
    .ok { s with db_query := some (env.sqlFromPrompt s.top_k hist s.question) }

/-- Step `_execute_query` (lines 153–158): on `advanced` a pass-through; otherwise
runs `state["db_query"]` and writes `db_result`. -/
def execute_query (env : Env) (s : RagState) : Except String RagState :=
  if s.advanced then .ok s
  else do
    let q ← getItem s.db_query "db_query"
    .ok { s with db_result := some (env.runSql q) }

/-- Step `_build_answer` (lines 160–171): on `advanced` a pass-through; otherwise
asks the model to narrate question / db_query / db_result and writes
`db_response`. -/
def build_answer (env : Env) (s : RagState) : Except String RagState :=
  if s.advanced then .ok s
  else do
    let q ← getItem s.db_query "db_query"
    let r ← getItem s.db_result "db_result"
    .ok { s with db_response := some (env.answerFromSql s.question q r) }

/-- Step `_search_db` (lines 225–233): the agent loop over the question; the final
content of the final streamed message becomes `db_response`. -/
def search_db (env : Env) (s : RagState) : Except String RagState :=
  .ok { s with db_response := some (env.agentSearch s.question) }

/-- Step `_build_search_query_with_context` (lines 173–185): prompt the model with
the conversation history, return its content. -/
def build_search_query_with_context (env : Env) (s : RagState) :
    Except String String := do
  let hist ← buildMessageHistory s.messages
  .ok (env.extractSearchQuery hist)

/-- Step `_retrive_docs` (lines 187–189): `similarity_search` over the derived
search string.  The call passes no `k`, so the framework default 4 applies —
not the configured `top_k`. -/
def retrive_docs (env : Env) (s : RagState) : Except String RagState := do
  let q ← build_search_query_with_context env s
  .ok { s with context := some (similaritySearch env q SIMILARITY_SEARCH_DEFAULT_K) }

/-- Step `_generate_from_context` (lines 191–195): join the retrieved chunks with
blank lines, ask the RAG prompt, write `rag_response`. -/
def generate_from_context (env : Env) (s : RagState) : Except String RagState := do
  let ctx ← getItem s.context "context"
  let docs_content := String.intercalate "\n\n" ctx
  .ok { s with rag_response := some (env.ragAnswer s.question docs_content) }

/-- Step `_merge_smart` (lines 197–223): prompt the model with history, question,
db_response and rag_response; append `AIMessage(content=answer)` to
`state['messages']` in place (line 222, mutating the list held by the
`messages` channel) and write `answer`. -/
def merge_smart (env : Env) (s : RagState) : Except String RagState := do
  let hist ← buildMessageHistory s.messages
  let db ← getItem s.db_response "db_response"
  let rag ← getItem s.rag_response "rag_response"
  let a := env.mergeAnswer hist s.question db rag
  .ok { s with answer := some a, messages := s.messages ++ [Msg.ai a] }

/-! ### The graph (`_build_rag_workflow`, lines 235–248)

```python
graph_builder.add_sequence([self._retrive_docs, self._generate_from_context, self._merge_smart])
graph_builder.add_sequence([self._build_query, self._execute_query, self._build_answer])
graph_builder.add_node(self._search_db)
graph_builder.add_edge("_search_db", "_retrive_docs")
graph_builder.add_edge("_build_answer", "_retrive_docs")
graph_builder.add_conditional_edges(START, lambda x: x["config"]["advanced"], {True: "_search_db", False: "_build_query"})
```
Every node has at most one outgoing edge and `_merge_smart` has none, so
execution is the unique edge-following walk from the entry node chosen by the
conditional. -/

inductive Node where
  | retrive_docs
  | generate_from_context
  | merge_smart
  | build_query
  | execute_query
  | build_answer
  | search_db
  deriving DecidableEq

/-- The edges added by `_build_rag_workflow`: the two `add_sequence` chains
plus the two explicit `add_edge` calls. -/
def workflowEdges : List (Node × Node) :=
  [ (.retrive_docs, .generate_from_context),
    (.generate_from_context, .merge_smart),
    (.build_query, .execute_query),
    (.execute_query, .build_answer),
    (.search_db, .retrive_docs),
    (.build_answer, .retrive_docs) ]

/-- The conditional edge from START (lines 242–245). -/
def entryNode (advanced : Bool) : Node :=
  if advanced then .search_db else .build_query

/-- The unique successor of a node, when it has one (the edge table above,
as a function; `nextNode_eq_lookup` below checks the agreement). -/
def nextNode : Node → Option Node
  | .retrive_docs => some .generate_from_context
  | .generate_from_context => some .merge_smart
  | .build_query => some .execute_query
  | .execute_query => some .build_answer
  | .search_db => some .retrive_docs
  | .build_answer => some .retrive_docs
  | .merge_smart => none

/-- Dispatch a node name to its step function. -/
def stepFn (env : Env) : Node → RagState → Except String RagState
  | .retrive_docs => retrive_docs env
  | .generate_from_context => generate_from_context env
  | .merge_smart => merge_smart env
  | .build_query => build_query env
  | .execute_query => execute_query env
  | .build_answer => build_answer env
  | .search_db => search_db env

/-- Run the graph from node `n`: execute `n`, then follow its unique outgoing
edge, stopping at a node with no successor.  Returns the final channel values
and the trace of executed node names.  `fuel` bounds the walk (the graph is
acyclic with at most 6 nodes on any walk, so any fuel ≥ 6 is enough). -/
def runFrom (env : Env) : Nat → Node → RagState → Except String (RagState × List Node)
  | 0, _, _ => .error "recursion limit"
  | fuel + 1, n, s => do
      let s' ← stepFn env n s
      match nextNode n with
      | none => .ok (s', [n])
      | some m => do
          let (s'', tr) ← runFrom env fuel m s'
          .ok (s'', n :: tr)

/-- One compiled-graph invocation on channel values `s`: enter at the node
chosen by the conditional edge on `s.advanced` and walk the graph. -/
def graphInvoke (env : Env) (s : RagState) : Except String (RagState × List Node) :=
  runFrom env 8 (entryNode s.advanced) s

/-- The node chain the edge-following walk visits from `n` (trace skeleton,
independent of the state). -/
def chainFrom : Nat → Node → List Node
  | 0, _ => []
  | fuel + 1, n =>
      match nextNode n with
      | none => [n]
      | some m => n :: chainFrom fuel m

/-! ### `invoke` and the persistent thread (lines 246–248, 262–265)

```python
def invoke(self, state:RagState):
    state["messages"] = [HumanMessage(content=question)]
    response = self.rag_graph.invoke(state, self.message_thread_config)
    return response
```
`question` here is the module-level variable set by `input("> ")` (line 270),
not `state["question"]`.  The input dict holds the keys `question`, `config`
and `messages`; since every channel is `LastValue`, those three channels are
*overwritten* with the input values (the previous thread checkpoint supplies
every other channel). -/

/-- The channel values at the start of a graph run inside `invoke`:
the checkpointed values with the `question`, `config` and `messages` values of
the input
written over them.  `globalQuestion` is the module-level `question` used on
line 263; `stateQuestion` is the `question` key of the state dict argument. -/
def invokeSeed (globalQuestion : String) (checkpoint : RagState)
    (stateQuestion : String) (topK : Nat) (advanced : Bool) : RagState :=
  { checkpoint with
      question := stateQuestion, top_k := topK, advanced := advanced,
      messages := [Msg.human globalQuestion] }

/-- Method `ModelAdapter.invoke`: seed the messages channel and run the graph against
the persistent thread state. -/
def invoke (env : Env) (globalQuestion : String) (checkpoint : RagState)
    (stateQuestion : String) (topK : Nat) (advanced : Bool) :
    Except String (RagState × List Node) :=
  graphInvoke env (invokeSeed globalQuestion checkpoint stateQuestion topK advanced)

/-- One REPL turn (lines 269–272): the loop passes the same just-read line as
both the module-level `question` and the `question` key of the state dict. -/
def replTurn (env : Env) (topK : Nat) (advanced : Bool) (checkpoint : RagState)
    (q : String) : Except String (RagState × List Node) :=
  invoke env q checkpoint q topK advanced

/-- The channel values of the thread after a run (the checkpoint the next turn
starts from); an errored run is never checkpointed, `emptyState` stands in as
a dummy. -/
def afterTurn (r : Except String (RagState × List Node)) : RagState :=
  match r with
  | .ok (s, _) => s
  | .error _ => emptyState

/-- Whether a run completed without an exception. -/
def runOk (r : Except String (RagState × List Node)) : Bool :=
  match r with
  | .ok _ => true
  | .error _ => false

/-! ### A concrete environment for counterexample runs

Each oracle tags its answer with the arguments the program passed it, so a
final state records exactly what reached each external call. -/

def sampleEnv : Env :=
  { sqlFromPrompt := fun _ hist input => "sql(" ++ hist ++ ";" ++ input ++ ")",
    runSql := fun q => "res(" ++ q ++ ")",
    answerFromSql := fun q _ _ => "dbans(" ++ q ++ ")",
    agentSearch := fun q => "agent(" ++ q ++ ")",
    extractSearchQuery := fun hist => "lookup(" ++ hist ++ ")",
    rank := fun _ => ["d1", "d2", "d3", "d4", "d5"],
    ragAnswer := fun q _ => "rag(" ++ q ++ ")",
    mergeAnswer := fun hist q _ _ => "merged(" ++ hist ++ ";" ++ q ++ ")" }

/-- The trace of executed nodes of a run (empty for an errored run). -/
def traceOf (r : Except String (RagState × List Node)) : List Node :=
  match r with
  | .ok (_, tr) => tr
  | .error _ => []

/-- Whether an exceptional computation completed normally. -/
def exceptIsOk {ε α : Type} : Except ε α → Bool
  | .ok _ => true
  | .error _ => false

/-! ### Adapter construction (`__init__`, lines 250–260)

```python
def __init__(self):
    self._init_db()
    self._init_vector_store()
    self._load_documents()
    self._index_documents()

    self._init_llm()
    self._init_prompt_config()
    self._init_agent()

    self._build_rag_workflow()
```
`_init_db` (line 39) opens the PostgreSQL connection (a network call);
`_init_vector_store` (lines 102–104) constructs the embeddings client and the
in-memory store (no network call); `_load_documents` (lines 106–110) reads a
local file; `_index_documents` (lines 112–114) embeds every chunk through the
hosted embedding API via `add_documents` and fetches the RAG prompt with
`hub.pull` (both network calls); `_init_llm` (lines 41–44) raises when
`GOOGLE_API_KEY` is absent from the environment, before constructing the chat
model.  No chat-model call happens during construction.  The external calls
themselves are modelled as succeeding: only the explicit credential check in
the repository code can fail here. -/

inductive InitEvent where
  | dbConnect
  | vectorStoreInit
  | loadDocs
  | embedIndex
  | hubPull
  | llmClientInit
  | promptConfig
  | agentInit
  | workflowBuild
  deriving DecidableEq

/-- Which initialisation events reach the network: the database connection,
the embedding of the document chunks, and the prompt-hub fetch. -/
def InitEvent.isNetwork : InitEvent → Bool
  | .dbConnect => true
  | .embedIndex => true
  | .hubPull => true
  | _ => false

/-- Run `ModelAdapter.__init__` with or without `GOOGLE_API_KEY` present:
returns the events performed, in order, and whether construction completed
(false means the `_init_llm` exception aborted it). -/
def adapterInit (apiKeyPresent : Bool) : List InitEvent × Bool :=
  let beforeCheck : List InitEvent :=
    [.dbConnect, .vectorStoreInit, .loadDocs, .embedIndex, .hubPull]
  if apiKeyPresent then
    (beforeCheck ++ [.llmClientInit, .promptConfig, .agentInit, .workflowBuild], true)
  else
    (beforeCheck, false)

/-! ### The output claimed for `_build_message_history`

Claim C8 describes the result as the concatenation, in list order, of one
`Role: content` line per message for every message except the last, with
surrounding whitespace stripped.  The next definitions state that description
directly (for dict-style entries, the only ones `.get` accepts), to be
compared with `buildMessageHistory` above. -/

/-- Concatenation of a list of strings, in list order. -/
def concatAll : List String → String
  | [] => ""
  | s :: rest => s ++ concatAll rest

/-- One claimed history line for a dict-style entry: the capitalised role,
a colon and space, the content, and a newline. -/
def claimedHistoryLine (m : Msg) : String :=
  match m with
  | .dict pairs =>
      pyCapitalize (dictGet pairs "role" "unknown") ++ ": " ++ dictGet pairs "content" "" ++ "\n"
  | _ => ""

/-- The claimed result: one line per non-final message, concatenated in list
order and stripped. -/
def claimedHistory (messages : List Msg) : String :=
  pyStrip (concatAll (messages.dropLast.map claimedHistoryLine))

/-- Turn 1 of the two-turn REPL scenario: question `"q1"`, `advanced=false`,
`top_k=10`, fresh thread. -/
def turn1 : Except String (RagState × List Node) :=
  replTurn sampleEnv 10 false emptyState "q1"

/-- The thread checkpoint after turn 1. -/
def state1 : RagState := afterTurn turn1

/-- Turn 2 on the same thread: question `"q2"`. -/
def turn2 : Except String (RagState × List Node) :=
  replTurn sampleEnv 10 false state1 "q2"

/-- The thread checkpoint after turn 2. -/
def state2 : RagState := afterTurn turn2

/-- Result state of a single successful step call (dummy on error). -/
def afterStep (r : Except String RagState) : RagState :=
  match r with
  | .ok s => s
  | .error _ => emptyState

/-- A concrete state as `_merge_smart` receives it: one seeded human message
and both tool responses present. -/
def preMergeState : RagState :=
  { emptyState with
    question := "qq",
    db_response := some "d",
    rag_response := some "r",
    messages := [Msg.human "qq"] }

/-! ## Helper lemmas -/

/-- The successor function is exactly the first-match lookup in the edge list
built by `_build_rag_workflow`. -/
theorem nextNode_eq_lookup (n : Node) : nextNode n = workflowEdges.lookup n := by
  cases n <;> rfl

/-- The trace of a successful walk is the edge-following node chain: it
depends only on the graph wiring, not on the state or the oracles. -/
theorem runFrom_trace (env : Env) :
    ∀ (fuel : Nat) (n : Node) (s s' : RagState) (tr : List Node),
      runFrom env fuel n s = .ok (s', tr) → tr = chainFrom fuel n := by
  intro fuel
  induction fuel with
  | zero =>
      intro n s s' tr h
      simp [runFrom] at h
  | succ fuel ih =>
      intro n s s' tr h
      rw [runFrom] at h
      cases hstep : stepFn env n s with
      | error e =>
          simp [hstep, Bind.bind, Except.bind] at h
      | ok s1 =>
          cases hnext : nextNode n with
          | none =>
              simp only [hstep, hnext, Bind.bind, Except.bind, Except.ok.injEq,
                Prod.mk.injEq] at h
              rw [chainFrom, hnext]
              exact h.2.symm
          | some m =>
              cases hrec : runFrom env fuel m s1 with
              | error e =>
                  simp [hstep, hnext, hrec, Bind.bind, Except.bind] at h
              | ok p =>
                  simp only [hstep, hnext, hrec, Bind.bind, Except.bind, Except.ok.injEq,
                    Prod.mk.injEq] at h
                  rw [chainFrom, hnext]
                  show tr = n :: chainFrom fuel m
                  rw [← ih m s1 p.1 p.2 hrec]
                  exact h.2.symm

/-- With `advanced=true` and a readable message history, the whole run is
the agent branch followed by the RAG chain; the result state is the input
state with only `db_response`, `context`, `rag_response`, `answer` written
and the merged answer appended to `messages`. -/
theorem advanced_run_eq (env : Env) (s : RagState) (hadv : s.advanced = true)
    (hist : String) (hh : buildMessageHistory s.messages = .ok hist) :
    graphInvoke env s =
      .ok ({ s with
              db_response := some (env.agentSearch s.question),
              context := some (similaritySearch env (env.extractSearchQuery hist)
                SIMILARITY_SEARCH_DEFAULT_K),
              rag_response := some (env.ragAnswer s.question (String.intercalate "\n\n"
                (similaritySearch env (env.extractSearchQuery hist)
                  SIMILARITY_SEARCH_DEFAULT_K))),
              answer := some (env.mergeAnswer hist s.question (env.agentSearch s.question)
                (env.ragAnswer s.question (String.intercalate "\n\n"
                  (similaritySearch env (env.extractSearchQuery hist)
                    SIMILARITY_SEARCH_DEFAULT_K)))),
              messages := s.messages ++ [Msg.ai (env.mergeAnswer hist s.question
                (env.agentSearch s.question)
                (env.ragAnswer s.question (String.intercalate "\n\n"
                  (similaritySearch env (env.extractSearchQuery hist)
                    SIMILARITY_SEARCH_DEFAULT_K))))] },
            [Node.search_db, Node.retrive_docs, Node.generate_from_context,
              Node.merge_smart]) := by
  simp [graphInvoke, entryNode, hadv, runFrom, stepFn, nextNode, workflowEdges,
    search_db, retrive_docs, build_search_query_with_context, generate_from_context,
    merge_smart, getItem, hh, Bind.bind, Except.bind, List.lookup]

/-- With `advanced=true` and an unreadable message history, the run aborts
with the propagated exception (raised inside `_retrive_docs`). -/
theorem advanced_run_error (env : Env) (s : RagState) (hadv : s.advanced = true)
    (e : String) (hh : buildMessageHistory s.messages = .error e) :
    graphInvoke env s = .error e := by
  simp [graphInvoke, entryNode, hadv, runFrom, stepFn, nextNode, workflowEdges,
    search_db, retrive_docs, build_search_query_with_context, generate_from_context,
    merge_smart, getItem, hh, Bind.bind, Except.bind, List.lookup]

/-- With `advanced=false` and a readable message history, the whole run is
the SQL chain followed by the RAG chain, each step writing its one field. -/
theorem simple_run_eq (env : Env) (s : RagState) (hadv : s.advanced = false)
    (hist : String) (hh : buildMessageHistory s.messages = .ok hist) :
    graphInvoke env s =
      .ok ({ s with
              db_query := some (env.sqlFromPrompt s.top_k hist s.question),
              db_result := some (env.runSql (env.sqlFromPrompt s.top_k hist s.question)),
              db_response := some (env.answerFromSql s.question
                (env.sqlFromPrompt s.top_k hist s.question)
                (env.runSql (env.sqlFromPrompt s.top_k hist s.question))),
              context := some (similaritySearch env (env.extractSearchQuery hist)
                SIMILARITY_SEARCH_DEFAULT_K),
              rag_response := some (env.ragAnswer s.question (String.intercalate "\n\n"
                (similaritySearch env (env.extractSearchQuery hist)
                  SIMILARITY_SEARCH_DEFAULT_K))),
              answer := some (env.mergeAnswer hist s.question
                (env.answerFromSql s.question (env.sqlFromPrompt s.top_k hist s.question)
                  (env.runSql (env.sqlFromPrompt s.top_k hist s.question)))
                (env.ragAnswer s.question (String.intercalate "\n\n"
                  (similaritySearch env (env.extractSearchQuery hist)
                    SIMILARITY_SEARCH_DEFAULT_K)))),
              messages := s.messages ++ [Msg.ai (env.mergeAnswer hist s.question
                (env.answerFromSql s.question (env.sqlFromPrompt s.top_k hist s.question)
                  (env.runSql (env.sqlFromPrompt s.top_k hist s.question)))
                (env.ragAnswer s.question (String.intercalate "\n\n"
                  (similaritySearch env (env.extractSearchQuery hist)
                    SIMILARITY_SEARCH_DEFAULT_K))))] },
            [Node.build_query, Node.execute_query, Node.build_answer,
              Node.retrive_docs, Node.generate_from_context, Node.merge_smart]) := by
  simp [graphInvoke, entryNode, hadv, runFrom, stepFn, nextNode, build_query,
    execute_query, build_answer, retrive_docs, build_search_query_with_context,
    generate_from_context, merge_smart, getItem, hh, Bind.bind, Except.bind]

/-- The message history of a freshly seeded turn is always readable and
empty: the seeded channel holds one object message and the loop never touches
it. -/
theorem seeded_history_ok (g sq : String) (cp : RagState) (tk : Nat) (adv : Bool) :
    buildMessageHistory (invokeSeed g cp sq tk adv).messages = .ok "" := rfl

/-- Every call of `ModelAdapter.invoke` completes without an exception,
whatever the oracles answer: the seeding leaves exactly one message, so the
history builder never reaches an object entry, and each step finds the fields
it reads already written. -/
theorem invoke_ok (env : Env) (g sq : String) (cp : RagState) (tk : Nat) (adv : Bool) :
    exceptIsOk (invoke env g cp sq tk adv) = true := by
  have hh := seeded_history_ok g sq cp tk adv
  cases adv with
  | false => rw [invoke, simple_run_eq env _ rfl "" hh]; rfl
  | true => rw [invoke, advanced_run_eq env _ rfl "" hh]; rfl

/-! ## Claims about the workflow ordering -/

/-- Claim C5: for every configuration with `advanced=false`, one workflow
invocation executes the SQL-generation step (`_build_query`) strictly before
the SQL-execution step (`_execute_query`), and the SQL-execution step strictly
before the SQL-answer step (`_build_answer`). -/
theorem sql_chain_strictly_ordered (env : Env) (s s' : RagState) (tr : List Node)
    (hadv : s.advanced = false) (h : graphInvoke env s = .ok (s', tr)) :
    Node.build_query ∈ tr ∧ Node.execute_query ∈ tr ∧ Node.build_answer ∈ tr ∧
    tr.indexOf Node.build_query < tr.indexOf Node.execute_query ∧
    tr.indexOf Node.execute_query < tr.indexOf Node.build_answer := by
  have htr : tr = chainFrom 8 (entryNode s.advanced) :=
    runFrom_trace env 8 (entryNode s.advanced) s s' tr h
  rw [hadv] at htr
  subst htr
  decide

/-- Witness for C5: the concrete first REPL turn (question `q1`,
`advanced=false`, `top_k=10`) succeeds and its trace orders the SQL chain. -/
theorem sql_chain_strictly_ordered_witness :
    Node.build_query ∈ traceOf turn1 ∧ Node.execute_query ∈ traceOf turn1 ∧
    Node.build_answer ∈ traceOf turn1 ∧
    (traceOf turn1).indexOf Node.build_query < (traceOf turn1).indexOf Node.execute_query ∧
    (traceOf turn1).indexOf Node.execute_query < (traceOf turn1).indexOf Node.build_answer :=
  sql_chain_strictly_ordered sampleEnv (invokeSeed "q1" emptyState "q1" 10 false)
    (afterTurn turn1) (traceOf turn1) rfl rfl

/-- Claim C6: for every configuration with `advanced=true`, the
SQL-generation, SQL-execution and SQL-answer steps perform no work — each
passes any `advanced` state through unchanged, none of them appears in the
executed trace, and the `db_query` and `db_result` fields of the final state
are exactly those of the input state (in particular they stay unset when they
started unset). -/
theorem advanced_mode_sql_steps_noop (env : Env) (s : RagState)
    (hadv : s.advanced = true) :
    build_query env s = .ok s ∧ execute_query env s = .ok s ∧
    build_answer env s = .ok s ∧
    ∀ s' tr, graphInvoke env s = .ok (s', tr) →
      s'.db_query = s.db_query ∧ s'.db_result = s.db_result ∧
      Node.build_query ∉ tr ∧ Node.execute_query ∉ tr ∧ Node.build_answer ∉ tr := by
  refine ⟨by simp [build_query, hadv], by simp [execute_query, hadv],
    by simp [build_answer, hadv], ?_⟩
  intro s' tr h
  cases hh : buildMessageHistory s.messages with
  | error e =>
      rw [advanced_run_error env s hadv e hh] at h
      cases h
  | ok hist =>
      rw [advanced_run_eq env s hadv hist hh] at h
      simp only [Except.ok.injEq, Prod.mk.injEq] at h
      obtain ⟨hs, htr⟩ := h
      subst htr
      exact ⟨by rw [← hs], by rw [← hs], by decide, by decide, by decide⟩

/-- Witness for C6: a concrete `advanced=true` turn (fresh thread, question
`qa`) on which the SQL steps are pass-throughs, stay out of the trace and
leave `db_query`/`db_result` unset. -/
theorem advanced_mode_sql_steps_noop_witness :
    build_query sampleEnv (invokeSeed "qa" emptyState "qa" 10 true) =
      .ok (invokeSeed "qa" emptyState "qa" 10 true) ∧
    (afterTurn (replTurn sampleEnv 10 true emptyState "qa")).db_query =
      (invokeSeed "qa" emptyState "qa" 10 true).db_query ∧
    Node.build_query ∉ traceOf (replTurn sampleEnv 10 true emptyState "qa") := by
  have h := advanced_mode_sql_steps_noop sampleEnv
    (invokeSeed "qa" emptyState "qa" 10 true) rfl
  have h4 := h.2.2.2 (afterTurn (replTurn sampleEnv 10 true emptyState "qa"))
    (traceOf (replTurn sampleEnv 10 true emptyState "qa")) rfl
  exact ⟨h.1, h4.1, h4.2.2.1⟩

/-- Claim C7: every call of `invoke` completes, whatever the configuration,
and in every completed workflow run the retrieval step executes exactly once,
strictly after every executed node of the database-path branch (the agent
search, or the build/execute/answer chain). -/
theorem retrieval_after_db_branch (env : Env) :
    (∀ g sq (cp : RagState) tk adv, exceptIsOk (invoke env g cp sq tk adv) = true) ∧
    ∀ (s s' : RagState) (tr : List Node), graphInvoke env s = .ok (s', tr) →
      Node.retrive_docs ∈ tr ∧ tr.count Node.retrive_docs = 1 ∧
      ∀ n ∈ tr, (n = Node.search_db ∨ n = Node.build_query ∨
          n = Node.execute_query ∨ n = Node.build_answer) →
        tr.indexOf n < tr.indexOf Node.retrive_docs := by
  refine ⟨fun g sq cp tk adv => invoke_ok env g sq cp tk adv, ?_⟩
  intro s s' tr h
  have htr : tr = chainFrom 8 (entryNode s.advanced) :=
    runFrom_trace env 8 (entryNode s.advanced) s s' tr h
  subst htr
  cases hadv : s.advanced
  · decide
  · decide

/-- Witness for C7: the concrete first REPL turn completes, and its retrieval
step runs exactly once, after the SQL branch. -/
theorem retrieval_after_db_branch_witness :
    exceptIsOk (invoke sampleEnv "q1" emptyState "q1" 10 false) = true ∧
    (Node.retrive_docs ∈ traceOf turn1 ∧
      (traceOf turn1).count Node.retrive_docs = 1 ∧
      ∀ n ∈ traceOf turn1, (n = Node.search_db ∨ n = Node.build_query ∨
          n = Node.execute_query ∨ n = Node.build_answer) →
        (traceOf turn1).indexOf n < (traceOf turn1).indexOf Node.retrive_docs) :=
  ⟨(retrieval_after_db_branch sampleEnv).1 "q1" "q1" emptyState 10 false,
    (retrieval_after_db_branch sampleEnv).2 (invokeSeed "q1" emptyState "q1" 10 false)
      (afterTurn turn1) (traceOf turn1) rfl⟩

/-! ## Claims about the persistent message history

The two-turn scenario: questions `q1` then `q2` on the one thread, with
`advanced=false` and `top_k=10`.  Because every channel of the state is a
plain `LastValue` channel, the `messages` list written by `invoke` (line 263)
replaces the checkpointed one instead of being merged into it. -/

/-- Claim C1: within a turn the merge step appends its output to the message
history exactly once — but across turns the history does not grow: the second
turn replaces the checkpointed two-entry history of the first turn with a
fresh list, so the first-turn history is not a prefix of the second-turn
history and the length never exceeds two.  This run evaluates the code on the
failing input (questions `q1` then `q2`). -/
theorem history_replaced_not_grown :
    runOk turn1 = true ∧ runOk turn2 = true ∧
    state1.messages = [Msg.human "q1", Msg.ai "merged(;q1)"] ∧
    state2.messages = [Msg.human "q2", Msg.ai "merged(;q2)"] ∧
    List.isPrefixOf state1.messages state2.messages = false ∧
    state2.messages.length = state1.messages.length := by
  decide

/-- Claim C2: the messages of the first turn are absent from the history used
for prompt construction in the second turn.  The channel values entering the
second-turn graph run hold only `[HumanMessage q2]`; every
`_build_message_history` call of the second turn therefore returns the empty
string, and the merge prompt of turn 2 (whose history slot the oracle embeds
into the answer) saw an empty history.  This run evaluates the code on the
failing input (questions `q1` then `q2`). -/
theorem first_turn_absent_from_second_turn_prompts :
    runOk turn1 = true ∧ runOk turn2 = true ∧
    state1.messages = [Msg.human "q1", Msg.ai "merged(;q1)"] ∧
    (invokeSeed "q2" state1 "q2" 10 false).messages = [Msg.human "q2"] ∧
    Msg.human "q1" ∉ (invokeSeed "q2" state1 "q2" 10 false).messages ∧
    buildMessageHistory (invokeSeed "q2" state1 "q2" 10 false).messages = .ok "" ∧
    state2.answer = some "merged(;q2)" := by
  decide

/-! ## Claims about initialisation -/

/-- Claim C3, counterexample: with `GOOGLE_API_KEY` absent, initialisation
does fail, but not before network calls are attempted — the events performed
before the failure are not all network-free. -/
theorem init_fails_before_network_counterexample :
    ¬ ((adapterInit false).2 = false ∧
        ((adapterInit false).1.all fun e => !e.isNetwork) = true) := by
  decide

/-- Claim C3 as amended: with the credential absent, construction fails at
the explicit check in `_init_llm`, which runs only after the database
connection and the document embedding/indexing network calls of
`_init_db`/`_index_documents`; no chat-model client is initialised and no
model call is made before (or after) the failure, and with the credential
present construction completes. -/
theorem init_fails_after_db_and_embedding :
    (adapterInit false).2 = false ∧
    (adapterInit false).1 =
      [.dbConnect, .vectorStoreInit, .loadDocs, .embedIndex, .hubPull] ∧
    InitEvent.dbConnect.isNetwork = true ∧ InitEvent.embedIndex.isNetwork = true ∧
    InitEvent.llmClientInit ∉ (adapterInit false).1 ∧
    InitEvent.agentInit ∉ (adapterInit false).1 ∧
    (adapterInit true).2 = true := by
  decide

/-! ## Claims about retrieval -/

/-- Claim C4, counterexample: on the concrete first REPL turn the configured
`top_k` is 10 and the index ranking holds 5 chunks, so the top-`top_k` fetch
the claim describes would return all 5; the code retrieves 4 (the
`similarity_search` default, since line 188 passes no `k`). -/
theorem retrieval_topk_counterexample :
    runOk turn1 = true ∧ state1.top_k = 10 ∧
    state1.context = some ["d1", "d2", "d3", "d4"] ∧
    (sampleEnv.rank "lookup()").length = 5 ∧
    state1.context ≠ some ((sampleEnv.rank "lookup()").take state1.top_k) := by
  decide

/-- Claim C4 as amended: the retrieval step fetches the top-K most similar
chunks with K equal to the framework default of 4 (the call site passes no
`k` argument), independently of the configured `top_k`. -/
theorem retrieval_uses_default_k (env : Env) (s : RagState) (hist : String)
    (hh : buildMessageHistory s.messages = .ok hist) :
    retrive_docs env s =
      .ok { s with context := some ((env.rank (env.extractSearchQuery hist)).take
              SIMILARITY_SEARCH_DEFAULT_K) } := by
  simp [retrive_docs, build_search_query_with_context, similaritySearch, hh,
    Bind.bind, Except.bind]

/-- Witness for the amended C4: the concrete seeded first-turn state, whose
history is empty, retrieves the first 4 ranked chunks. -/
theorem retrieval_uses_default_k_witness :
    retrive_docs sampleEnv (invokeSeed "q1" emptyState "q1" 10 false) =
      .ok { invokeSeed "q1" emptyState "q1" 10 false with
            context := some ((sampleEnv.rank (sampleEnv.extractSearchQuery "")).take
              SIMILARITY_SEARCH_DEFAULT_K) } :=
  retrieval_uses_default_k sampleEnv (invokeSeed "q1" emptyState "q1" 10 false) "" rfl

/-! ## Claims about `_build_message_history` -/

/-- On dict-style entries the history loop succeeds, returning the
accumulator followed by one line per entry, in list order. -/
theorem buildHistoryLoop_dict (ms : List Msg) (hd : ∀ m ∈ ms, m.isDict = true) :
    ∀ acc, buildHistoryLoop ms acc = .ok (acc ++ concatAll (ms.map claimedHistoryLine)) := by
  induction ms with
  | nil =>
      intro acc
      simp [buildHistoryLoop, concatAll]
  | cons m ms ih =>
      intro acc
      cases m with
      | dict pairs =>
          have ih2 := ih (fun x hx => hd x (List.mem_cons_of_mem _ hx))
          simp only [buildHistoryLoop, msgGet, Bind.bind, Except.bind, ih2,
            List.map_cons, claimedHistoryLine, concatAll, Except.ok.injEq]
          simp [String.append_assoc]
      | human c =>
          exact absurd (hd _ (List.mem_cons_self _ _)) (by simp [Msg.isDict])
      | ai c =>
          exact absurd (hd _ (List.mem_cons_self _ _)) (by simp [Msg.isDict])

/-- Claim C8, counterexample: a state carrying two stored (object-style)
messages makes `_build_message_history` raise `AttributeError` instead of
returning the concatenation of role/content lines. -/
theorem build_message_history_counterexample :
    exceptIsOk (buildMessageHistory [Msg.human "a", Msg.human "b"]) = false ∧
    buildMessageHistory [Msg.human "a", Msg.human "b"] =
      .error "AttributeError: HumanMessage object has no attribute get" := by
  decide

/-- Claim C8 as amended: for every state whose non-final message entries are
dict-style mappings, `_build_message_history` returns the concatenation, in
list order, of one capitalised `Role: content` line per message for all
messages except the last one, with surrounding whitespace stripped; the final
message is never included, and with at most one entry the result is the
empty string. -/
theorem build_message_history_dict_entries (messages : List Msg)
    (hd : ∀ m ∈ messages.dropLast, m.isDict = true) :
    buildMessageHistory messages = .ok (claimedHistory messages) ∧
    (messages.length ≤ 1 → buildMessageHistory messages = .ok "") := by
  have h1 : buildMessageHistory messages = .ok (claimedHistory messages) := by
    simp only [buildMessageHistory, Bind.bind, Except.bind,
      buildHistoryLoop_dict messages.dropLast hd "", claimedHistory]
    simp [pure, Except.pure]
  refine ⟨h1, ?_⟩
  intro hlen
  have hnil : messages.dropLast = [] := by
    cases messages with
    | nil => rfl
    | cons m tl =>
        cases tl with
        | nil => rfl
        | cons m2 tl2 => simp at hlen
  rw [h1]
  rw [claimedHistory, hnil]
  decide

/-- Witness for the amended C8: a dict entry followed by a final object
message yields the single capitalised line, stripped; the vacuous one-entry
conjunct is carried along. -/
theorem build_message_history_dict_entries_witness :
    buildMessageHistory [Msg.dict [("role", "user"), ("content", "hi")], Msg.human "x"] =
      .ok (claimedHistory [Msg.dict [("role", "user"), ("content", "hi")], Msg.human "x"]) ∧
    (([Msg.dict [("role", "user"), ("content", "hi")], Msg.human "x"] : List Msg).length ≤ 1 →
      buildMessageHistory [Msg.dict [("role", "user"), ("content", "hi")], Msg.human "x"] =
        .ok "") :=
  build_message_history_dict_entries
    [Msg.dict [("role", "user"), ("content", "hi")], Msg.human "x"] (by decide)

/-- Claim C9: the entries stored into the messages list are langchain message
objects — `invoke` seeds a `HumanMessage` and `_merge_smart` appends an
`AIMessage` — and on a list of such object entries `_build_message_history`
completes without error exactly when the list has at most one entry, failing
on any state carrying two or more stored messages. -/
theorem history_fails_on_stored_objects :
    (∀ g sq (cp : RagState) tk adv, (invokeSeed g cp sq tk adv).messages = [Msg.human g] ∧
        Msg.isObj (Msg.human g) = true) ∧
    (∀ env s s', merge_smart env s = .ok s' →
        ∃ a, s'.messages = s.messages ++ [Msg.ai a] ∧ Msg.isObj (Msg.ai a) = true) ∧
    (∀ msgs : List Msg, (∀ m ∈ msgs, Msg.isObj m = true) →
        (exceptIsOk (buildMessageHistory msgs) = true ↔ msgs.length ≤ 1)) := by
  refine ⟨fun g sq cp tk adv => ⟨rfl, rfl⟩, ?_, ?_⟩
  · intro env s s' h
    cases hh : buildMessageHistory s.messages with
    | error e => simp [merge_smart, hh, Bind.bind, Except.bind] at h
    | ok hist =>
        cases hdb : s.db_response with
        | none => simp [merge_smart, hh, hdb, getItem, Bind.bind, Except.bind] at h
        | some db =>
            cases hrag : s.rag_response with
            | none => simp [merge_smart, hh, hdb, hrag, getItem, Bind.bind, Except.bind] at h
            | some rag =>
                simp only [merge_smart, hh, hdb, hrag, getItem, Bind.bind, Except.bind,
                  Except.ok.injEq] at h
                exact ⟨env.mergeAnswer hist s.question db rag, by rw [← h], rfl⟩
  · intro msgs hobj
    cases msgs with
    | nil => simp [buildMessageHistory, List.dropLast, buildHistoryLoop, exceptIsOk]
    | cons m1 tl =>
        cases tl with
        | nil => simp [buildMessageHistory, List.dropLast, buildHistoryLoop, exceptIsOk,
            pure, Except.pure, Bind.bind, Except.bind]
        | cons m2 rest =>
            have hm1 : Msg.isObj m1 = true := hobj m1 (List.mem_cons_self _ _)
            have herr : exceptIsOk (buildMessageHistory (m1 :: m2 :: rest)) = false := by
              cases m1 with
              | human c =>
                  simp [buildMessageHistory, List.dropLast, buildHistoryLoop, msgGet,
                    Bind.bind, Except.bind, exceptIsOk]
              | ai c =>
                  simp [buildMessageHistory, List.dropLast, buildHistoryLoop, msgGet,
                    Bind.bind, Except.bind, exceptIsOk]
              | dict ps => simp [Msg.isObj] at hm1
            constructor
            · intro hok
              rw [herr] at hok
              cases hok
            · intro hlen
              simp at hlen

/-- Witness for C9: concrete evaluations — the message seeded for question
`q`, the append done by one concrete merge call, and the success/failure of
the history builder on one and on two stored object messages. -/
theorem history_fails_on_stored_objects_witness :
    (invokeSeed "q" emptyState "q" 10 false).messages = [Msg.human "q"] ∧
    (∃ a, (afterStep (merge_smart sampleEnv preMergeState)).messages =
        preMergeState.messages ++ [Msg.ai a] ∧ Msg.isObj (Msg.ai a) = true) ∧
    (exceptIsOk (buildMessageHistory [Msg.human "q"]) = true ↔
      ([Msg.human "q"] : List Msg).length ≤ 1) ∧
    (exceptIsOk (buildMessageHistory [Msg.human "q", Msg.ai "a"]) = true ↔
      ([Msg.human "q", Msg.ai "a"] : List Msg).length ≤ 1) :=
  ⟨(history_fails_on_stored_objects.1 "q" "q" emptyState 10 false).1,
    history_fails_on_stored_objects.2.1 sampleEnv preMergeState
      (afterStep (merge_smart sampleEnv preMergeState)) (by decide),
    history_fails_on_stored_objects.2.2 [Msg.human "q"] (by decide),
    history_fails_on_stored_objects.2.2 [Msg.human "q", Msg.ai "a"] (by decide)⟩

/-! ## Claim about the seeded question -/

/-- Claim C10: `invoke` replaces the messages field with a one-element list
holding a human message whose content is the module-level `question` (the
last line read from standard input), not the question field of the state
argument; whenever the two differ the seeded content differs from the
question field the state carries. -/
theorem invoke_seeds_module_level_question (g sq : String) (cp : RagState)
    (tk : Nat) (adv : Bool) :
    (invokeSeed g cp sq tk adv).messages = [Msg.human g] ∧
    (invokeSeed g cp sq tk adv).question = sq ∧
    (sq ≠ g → (invokeSeed g cp sq tk adv).messages ≠
      [Msg.human (invokeSeed g cp sq tk adv).question]) := by
  refine ⟨rfl, rfl, ?_⟩
  intro hne heq
  simp only [invokeSeed, List.cons.injEq, Msg.human.injEq, and_true] at heq
  exact hne heq.symm

/-- Witness for C10: with module-level question `line` and a state whose
question field says `other`, the seeded message does not carry the state
question. -/
theorem invoke_seeds_module_level_question_witness :
    (invokeSeed "line" emptyState "other" 10 false).messages ≠
      [Msg.human (invokeSeed "line" emptyState "other" 10 false).question] :=
  (invoke_seeds_module_level_question "line" "other" emptyState 10 false).2.2 (by decide)

end ProductCatalog
